import Mathlib

/-!
Verification development for the dynamic-iframe-fetcher video player.

The definitions below are shallow embeddings of the TypeScript sources:
  - src/src/components/VideoPlayer.tsx  (playback session state machine)
  - src/src/services/videoService.ts    (URL parsing, refresh, extraction, mock search)
  - src/src/services/tmdbService.ts     (TMDB search)
  - src/unnamed/part_000                (VideoFetcher session: extract / retry)
  - src/src/components/MovieSearch.tsx  (submit-driven search dispatch)

JavaScript strings are modelled as Lean `String` (lists of characters);
asynchronous functions are modelled as pure functions that take their awaited
results (and the current clock) as explicit arguments and return, where the
claims need it, the ordered list of intermediate states together with the
number of resolver invocations they start.
-/

namespace DynFetch

/-- Models JS `s.endsWith(pat)`: suffix comparison by code points. -/
def strEndsWith (s pat : String) : Bool := List.isSuffixOf pat.data s.data

/-- Substring search helper: does `pat` occur contiguously in the list? -/
def listContains (pat : List Char) : List Char → Bool
  | [] => List.isPrefixOf pat []
  | c :: rest => List.isPrefixOf pat (c :: rest) || listContains pat rest

/-- Models JS `s.includes(pat)`: contiguous-substring test. -/
def strIncludes (s pat : String) : Bool := listContains pat.data s.data

/-- Models JS `s.startsWith(pat)`. -/
def strStartsWith (s pat : String) : Bool := List.isPrefixOf pat.data s.data

/-- ASCII lower-casing of one character.  The case-insensitive regex flag of
the sources only ever matches ASCII letters, so ASCII folding is faithful. -/
def jsLowerChar (c : Char) : Char :=
  if 'A' ≤ c ∧ c ≤ 'Z' then Char.ofNat (c.toNat + 32) else c

/-- ASCII lower-casing of a string. -/
def strLower (s : String) : String := String.mk (s.data.map jsLowerChar)

/-- Embeds `isDirectVideoUrl`'s third disjunct, the regex test
`url.match(/\.(mp4|webm|ogg|mov)$/i) !== null` from
src/src/components/VideoPlayer.tsx: an anchored, case-insensitive match of one
of the four file extensions at the end of the string. -/
def hasVideoFileExt (url : String) : Bool :=
  [".mp4", ".webm", ".ogg", ".mov"].any (fun ext => strEndsWith (strLower url) ext)

/-- Embeds `isDirectVideoUrl` from src/src/components/VideoPlayer.tsx
(lines 36-40), identical to the inline classifier of
src/src/services/videoService.ts `parseVideoUrl` (lines 124-127):
`url.endsWith('.m3u8') || url.includes('/stream') ||
url.match(/\.(mp4|webm|ogg|mov)$/i) !== null`.
Note only the extension test carries the `/i` flag. -/
def isDirectVideoUrl (url : String) : Bool :=
  strEndsWith url ".m3u8" || strIncludes url "/stream" || hasVideoFileExt url

/-- Modelled from the spec (claim C6 wording): the classifier with ALL three
tests performed case-insensitively, so that any-case variants such as an
upper-case `.M3U8` also count as direct.  Kept for comparison with the code's
`isDirectVideoUrl`. -/
def isDirectVideoUrlSpec (url : String) : Bool :=
  strEndsWith (strLower url) ".m3u8" || strIncludes (strLower url) "/stream" ||
    hasVideoFileExt url

example : isDirectVideoUrl "https://a.com/video.m3u8" = true := by decide
example : isDirectVideoUrl "https://a.com/video.M3U8" = false := by decide
example : isDirectVideoUrlSpec "https://a.com/video.M3U8" = true := by decide
example : isDirectVideoUrl "https://a.com/x/stream/7" = true := by decide
example : isDirectVideoUrl "https://a.com/v.MP4" = true := by decide
example : isDirectVideoUrl "https://jole340erun.com/play/tt27995594" = false := by decide

/-- JS whitespace as trimmed by `String.prototype.trim` (ASCII part plus NBSP
and BOM; the exotic Unicode space characters are outside the modelled inputs). -/
def jsIsSpace (c : Char) : Bool :=
  c = ' ' || c = '\t' || c = '\n' || c = '\r' || c = '\x0b' || c = '\x0c' ||
    c.toNat = 0xA0 || c.toNat = 0xFEFF

/-- Models JS `s.trim()`. -/
def strTrim (s : String) : String :=
  String.mk (((s.data.dropWhile jsIsSpace).reverse.dropWhile jsIsSpace).reverse)

/-- ASCII hexadecimal digit. -/
def isHexDigit (c : Char) : Bool :=
  c.isDigit || ('a' ≤ c ∧ c ≤ 'f') || ('A' ≤ c ∧ c ≤ 'F')

/-- ASCII octal digit. -/
def isOctDigit (c : Char) : Bool := '0' ≤ c ∧ c ≤ '7'

/-- ASCII binary digit. -/
def isBinDigit (c : Char) : Bool := c = '0' || c = '1'

/-- Optional exponent part of a JS decimal literal: empty, or
`(e|E) (+|-)? digits+`. -/
def isOptExponent : List Char → Bool
  | [] => true
  | e :: rest =>
    if e = 'e' ∨ e = 'E' then
      let rest2 := match rest with
        | s :: r => if s = '+' ∨ s = '-' then r else s :: r
        | [] => []
      rest2 ≠ [] && rest2.all Char.isDigit
    else false

/-- Unsigned JS decimal literal: `digits+ (. digits*)? exp?` or `. digits+ exp?`. -/
def isUnsignedDecimal (cs : List Char) : Bool :=
  let ds := cs.takeWhile Char.isDigit
  let rest := cs.dropWhile Char.isDigit
  if ds ≠ [] then
    match rest with
    | '.' :: r => isOptExponent (r.dropWhile Char.isDigit)
    | _ => isOptExponent rest
  else
    match cs with
    | '.' :: r =>
      let fs := r.takeWhile Char.isDigit
      fs ≠ [] && isOptExponent (r.dropWhile Char.isDigit)
    | _ => false

/-- JS non-decimal numeric literal: `0x`/`0o`/`0b` followed by at least one
digit of the corresponding base (no sign allowed). -/
def isNonDecimalLiteral : List Char → Bool
  | '0' :: x :: ds =>
    if x = 'x' ∨ x = 'X' then ds ≠ [] && ds.all isHexDigit
    else if x = 'o' ∨ x = 'O' then ds ≠ [] && ds.all isOctDigit
    else if x = 'b' ∨ x = 'B' then ds ≠ [] && ds.all isBinDigit
    else false
  | _ => false

/-- Models `!isNaN(Number(s))` for a string with no surrounding whitespace
(the sources always pass a trimmed string): the empty string converts to 0,
otherwise s must be a signed decimal literal, `Infinity`, or an unsigned
non-decimal (hex/octal/binary) literal. -/
def jsIsNumeric (s : String) : Bool :=
  if s.data = [] then true
  else if isNonDecimalLiteral s.data then true
  else
    let core := match s.data with
      | c :: r => if c = '+' ∨ c = '-' then r else c :: r
      | [] => []
    core = "Infinity".data || isUnsignedDecimal core

example : jsIsNumeric "27995594" = true := by decide
example : jsIsNumeric "" = true := by decide
example : jsIsNumeric "0x1F" = true := by decide
example : jsIsNumeric "Infinity" = true := by decide
example : jsIsNumeric "-1.5e3" = true := by decide
example : jsIsNumeric "a" = false := by decide
example : jsIsNumeric "tt27995594" = false := by decide
example : jsIsNumeric "1.2.3" = false := by decide
example : jsIsNumeric "0x" = false := by decide

/-- Embeds `generateVideoUrlFromId` from src/src/services/videoService.ts
(lines 146-154): trims the id, prefixes `tt` when the trimmed id does not
already start with `tt` and `Number(id)` is not NaN, and builds the embed URL
on the fixed base path. -/
def generateVideoUrlFromId (movieId : String) : String :=
  let formattedId := strTrim movieId
  let formattedId :=
    if ¬ (strStartsWith formattedId "tt" = true) ∧ jsIsNumeric formattedId = true then
      "tt" ++ formattedId
    else formattedId
  "https://jole340erun.com/play/" ++ formattedId

/-- Modelled from the spec (claim C7 wording): prefixes `tt` exactly when the
trimmed input is purely numeric (consists of digits) and is not already
tt-prefixed; every other input passes through unchanged.  Kept for comparison
with the code's `generateVideoUrlFromId`. -/
def generateVideoUrlFromIdClaim (movieId : String) : String :=
  let t := strTrim movieId
  let formattedId :=
    if ¬ (strStartsWith t "tt" = true) ∧ t ≠ "" ∧ t.data.all Char.isDigit = true then
      "tt" ++ t
    else t
  "https://jole340erun.com/play/" ++ formattedId

example : generateVideoUrlFromId "27995594" = "https://jole340erun.com/play/tt27995594" := by decide
example : generateVideoUrlFromId "tt27995594" = "https://jole340erun.com/play/tt27995594" := by decide
example : generateVideoUrlFromId "0x1F" = "https://jole340erun.com/play/tt0x1F" := by decide
example : generateVideoUrlFromIdClaim "0x1F" = "https://jole340erun.com/play/0x1F" := by decide
example : generateVideoUrlFromId " abc " = "https://jole340erun.com/play/abc" := by decide

/-- Splitter worker for `strSplitOn`, recursing on an explicit fuel that
bounds the number of characters still to be consumed. -/
def splitOnListFuel (sep : List Char) : Nat → List Char → List Char → List (List Char)
  | _, [], acc => [acc.reverse]
  | 0, cs, acc => [acc.reverse ++ cs]
  | fuel + 1, c :: rest, acc =>
    if sep ≠ [] ∧ List.isPrefixOf sep (c :: rest) then
      acc.reverse :: splitOnListFuel sep fuel ((c :: rest).drop sep.length) []
    else splitOnListFuel sep fuel rest (c :: acc)

/-- Models JS `s.split(sep)` for a non-empty separator. -/
def strSplitOn (s sep : String) : List String :=
  (splitOnListFuel sep.data s.data.length s.data []).map String.mk

example : strSplitOn "/videos/movie.mp4" "/" = ["", "videos", "movie.mp4"] := by decide
example : strSplitOn "a/" "/" = ["a", ""] := by decide
example : strSplitOn "abc" "/" = ["abc"] := by decide
example : strSplitOn "https://h.com/play/tt1?x" "/play/" = ["https://h.com", "tt1?x"] := by decide

/-- Components exposed by the browser URL object that the sources read:
`protocol` (with trailing colon), `hostname`, `pathname`, and the raw search
string without its leading question mark. -/
structure URLParts where
  protocol : String
  hostname : String
  pathname : String
  search : String
deriving DecidableEq

/-- Characters allowed after the first character of a URL scheme. -/
def isSchemeChar (c : Char) : Bool :=
  c.isAlpha || c.isDigit || c = '+' || c = '-' || c = '.'

/-- Characters that make a host invalid and the URL constructor throw. -/
def isHostForbidden (c : Char) : Bool :=
  c = ' ' || c = '\t' || c = '\n' || c = '\r' || c = '<' || c = '>' ||
    c = '^' || c = '|' || c = '"' || c = '`' || c.toNat < 0x20

/-- Schemes the URL standard treats as special (authority-based). -/
def isSpecialScheme (scheme : String) : Bool :=
  ["http", "https", "ws", "wss", "ftp", "file"].contains scheme

/-- Parses the authority-plus-path tail of a URL (everything after the scheme
and slashes): splits off host (dropping user info and a digit port), the
pathname and the search string.  Returns none on an empty or malformed host. -/
def urlParseAuthority (protocol : String) (cs : List Char) : Option URLParts :=
  let auth := cs.takeWhile (fun c => c ≠ '/' ∧ c ≠ '?' ∧ c ≠ '#')
  let pathRest := cs.dropWhile (fun c => c ≠ '/' ∧ c ≠ '?' ∧ c ≠ '#')
  let hostPort := (auth.reverse.takeWhile (fun c => c ≠ '@')).reverse
  let host := hostPort.takeWhile (fun c => c ≠ ':')
  let port := hostPort.dropWhile (fun c => c ≠ ':')
  if host = [] then none
  else if host.any isHostForbidden then none
  else if ¬ ((port.drop 1).all Char.isDigit) then none
  else
    let path := pathRest.takeWhile (fun c => c ≠ '?' ∧ c ≠ '#')
    let queryFrag := pathRest.dropWhile (fun c => c ≠ '?' ∧ c ≠ '#')
    let search := match queryFrag with
      | '?' :: q => String.mk (q.takeWhile (fun c => c ≠ '#'))
      | _ => ""
    some { protocol := protocol
         , hostname := String.mk (host.map jsLowerChar)
         , pathname := if path = [] then "/" else String.mk path
         , search := search }

/-- Models the WHATWG URL constructor (`new URL(url)`) on the fragment of
inputs this application handles: an ASCII scheme followed by a colon, then an
authority (for the special schemes, with any run of slashes tolerated), a
path, and an optional query.  Returns none exactly where the browser
constructor throws: no scheme, or an empty/invalid host for a special scheme.
Percent-encoding and relative references are outside the modelled fragment. -/
def urlParse (url : String) : Option URLParts :=
  let cs := ((url.data.dropWhile (fun c => c.toNat ≤ 0x20)).reverse.dropWhile
    (fun c => c.toNat ≤ 0x20)).reverse
  let schemeCs := cs.takeWhile isSchemeChar
  let rest := cs.dropWhile isSchemeChar
  match rest with
  | ':' :: afterColon =>
    if schemeCs = [] then none
    else if ¬ (schemeCs.headD 'a').isAlpha then none
    else
      let scheme := String.mk (schemeCs.map jsLowerChar)
      if isSpecialScheme scheme then
        urlParseAuthority (scheme ++ ":")
          (afterColon.dropWhile (fun c => c = '/' ∨ c = '\\'))
      else
        let path := afterColon.takeWhile (fun c => c ≠ '?' ∧ c ≠ '#')
        let queryFrag := afterColon.dropWhile (fun c => c ≠ '?' ∧ c ≠ '#')
        let search := match queryFrag with
          | '?' :: q => String.mk (q.takeWhile (fun c => c ≠ '#'))
          | _ => ""
        some { protocol := scheme ++ ":"
             , hostname := ""
             , pathname := String.mk path
             , search := search }
  | _ => none

example : urlParse "not a url" = none := by decide
example : urlParse "https://" = none := by decide
example : (urlParse "https://jole340erun.com/play/tt27995594").isSome = true := by decide
example : urlParse "https://CDN.Example.com/videos/movie.mp4?a=1&b=2" =
    some ⟨"https:", "cdn.example.com", "/videos/movie.mp4", "a=1&b=2"⟩ := by decide

/-- The parsed video source configuration of
src/src/services/videoService.ts (the variant with the direct-video flag). -/
structure VideoSourceConfig where
  baseUrl : String
  videoId : String
  params : List (String × String)
  isDirectVideo : Bool
deriving DecidableEq

/-- Models iterating `urlObj.searchParams`: split the search string on `&`,
drop empty segments, and split each segment at its first `=` (percent-decoding
is outside the modelled fragment). -/
def parseSearchParams (q : String) : List (String × String) :=
  ((strSplitOn q "&").filter (fun seg => seg ≠ "")).map (fun seg =>
    let k := seg.data.takeWhile (fun c => c ≠ '=')
    let v := seg.data.dropWhile (fun c => c ≠ '=')
    (String.mk k, match v with | '=' :: r => String.mk r | _ => ""))

/-- Embeds `parseVideoUrl` from src/src/services/videoService.ts
(lines 119-139): parses the URL with the browser constructor, and on success
builds the config from scheme+host, the last truthy `/`-separated path
segment (or the empty string), the search parameters, and the inline direct
classifier applied to the whole input; on a parse failure it catches the
exception and returns null. -/
def parseVideoUrl (url : String) : Option VideoSourceConfig :=
  match urlParse url with
  | none => none
  | some u =>
    let pathParts := (strSplitOn u.pathname "/").filter (fun s => s ≠ "")
    some { baseUrl := u.protocol ++ "//" ++ u.hostname
         , videoId := pathParts.getLast?.getD ""
         , params := parseSearchParams u.search
         , isDirectVideo := isDirectVideoUrl url }

/-- The last non-empty slash-separated segment of a path, stated the way the
spec words it; compared against the embedded `parseVideoUrl` in claim C8. -/
def lastNonEmptySegment (pathname : String) : String :=
  ((strSplitOn pathname "/").reverse.find? (fun s => s ≠ "")).getD ""

example : parseVideoUrl "not a url" = none := by decide
example : parseVideoUrl "https://cdn.example.com/videos/movie.mp4" =
    some ⟨"https://cdn.example.com", "movie.mp4", [], true⟩ := by decide
example : parseVideoUrl "https://jole340erun.com/play/tt27995594?x=1" =
    some ⟨"https://jole340erun.com", "tt27995594", [("x", "1")], false⟩ := by decide

deriving instance DecidableEq for Except

/-- Result of an awaited asynchronous service call: the milliseconds that pass
before the promise settles, and the settled value (ok) or rejection reason
(error). -/
structure AsyncResult where
  waitMs : Nat
  outcome : Except String String
deriving DecidableEq

/-- Embeds `fetchNewVideoUrl` from src/src/services/videoService.ts
(lines 41-70): the entire body runs inside a `setTimeout(..., 1000)` callback
that simulates the network delay; the callback rejects with
"Invalid video source configuration" when `baseUrl` or `videoId` is falsy
(empty), and otherwise resolves the rebuilt embed URL
`baseUrl + "/play/" + videoId + "?refresh=" + Date.now()`.  `now` stands for
the `Date.now()` timestamp observed inside the callback. -/
def fetchNewVideoUrl (now : Nat) (sourceConfig : VideoSourceConfig) : AsyncResult :=
  { waitMs := 1000
  , outcome :=
      if sourceConfig.baseUrl = "" ∨ sourceConfig.videoId = "" then
        Except.error "Invalid video source configuration"
      else
        Except.ok (sourceConfig.baseUrl ++ "/play/" ++ sourceConfig.videoId ++
          "?refresh=" ++ toString now) }

/-- Modelled from the spec (claim C4 wording): on a direct-video config the
refreshed URL is the original direct URL with a cache-busting query marker
appended, or — when the original already carried a query — that query replaced
by the marker. -/
def refreshPolicyDirectClaim (origUrl newUrl : String) : Prop :=
  (∃ marker : String, newUrl = origUrl ++ marker) ∨
    (∃ marker : String, newUrl = ((strSplitOn origUrl "?").headD origUrl) ++ marker)

/-- Embeds `extractOriginalVideoUrl` from src/src/services/videoService.ts
(lines 309-340): resolves one of four fixed sample HLS manifests for the four
known movie ids and a fixed fallback manifest for every other id; the promise
always resolves (never rejects) and never resolves null. -/
def extractOriginalVideoUrl (movieId : String) : Option String :=
  some
    (if movieId = "tt27995594" then
      "https://storage.googleapis.com/shaka-demo-assets/bbb-dark-truths-hls/hls.m3u8"
    else if movieId = "tt2062700" then
      "https://bitdash-a.akamaihd.net/content/sintel/hls/playlist.m3u8"
    else if movieId = "tt1375666" then
      "https://cdn.theoplayer.com/video/tears_of_steel/playlist.m3u8"
    else if movieId = "tt0111161" then
      "https://multiplatform-f.akamaihd.net/i/multi/will/bunny/big_buck_bunny_,640x360_400,640x360_700,640x360_1000,950x540_1500,.f4v.csmil/master.m3u8"
    else
      "https://demo.unified-streaming.com/k8s/features/stable/video/tears-of-steel/tears-of-steel.ism/.m3u8")

/-- The mock search result record of src/src/services/videoService.ts. -/
structure MovieSearchResult where
  id : String
  title : String
  year : Option String
  poster : Option String
deriving DecidableEq

/-- Embeds the mock `searchMovies` from src/src/services/videoService.ts
(lines 191-235): an id-looking query (tt-prefixed or numeric) resolves a
single synthetic entry for that id, and every other query resolves three
fixed mock results built from the query; there is no minimum-length guard. -/
def videoSearchMovies (query : String) : List MovieSearchResult :=
  if strStartsWith query "tt" || jsIsNumeric query then
    let formattedId := if strStartsWith query "tt" then query else "tt" ++ query
    [{ id := formattedId, title := "Movie " ++ formattedId, year := some "2023"
     , poster := some "https://via.placeholder.com/150x225?text=Movie" }]
  else
    [ { id := "tt27995594", title := query ++ " Adventure", year := some "2023"
      , poster := some "https://via.placeholder.com/150x225?text=Adventure" }
    , { id := "tt2062700", title := query ++ " Mystery", year := some "2022"
      , poster := some "https://via.placeholder.com/150x225?text=Mystery" }
    , { id := "tt1375666", title := query ++ " Drama", year := some "2021"
      , poster := some "https://via.placeholder.com/150x225?text=Drama" } ]

/-- Embeds the guard of `handleSearch` in src/src/components/MovieSearch.tsx
(lines 20-32): the submit handler dispatches the mock search for every query
whose trimmed form is non-empty (there is no debounce and no length-two
minimum on this path). -/
def movieSearchDispatches (query : String) : Bool :=
  strTrim query ≠ ""

/-- The TMDB search result record of src/src/services/tmdbService.ts. -/
structure TMDBMovieResult where
  id : Nat
  title : String
  poster_path : Option String
  release_date : String
  overview : String
deriving DecidableEq

/-- One observed search call: how many API fetches it performed and the
result list it produced. -/
structure SearchRun where
  apiCalls : Nat
  results : List TMDBMovieResult
deriving DecidableEq

/-- Embeds `searchMovies` from src/src/services/tmdbService.ts (lines 43-60):
`if (!query || query.length < 2) return []` fires before the fetch, so short
queries perform no API call; otherwise one fetch is issued and its parsed
result list (`net`, the network's answer) is returned. -/
def tmdbSearchMovies (net : List TMDBMovieResult) (query : String) : SearchRun :=
  if query = "" ∨ query.length < 2 then { apiCalls := 0, results := [] }
  else { apiCalls := 1, results := net }

/-- Embeds `performSearch` of the debounced effect in src/unnamed/part_000
(lines 75-94): the TMDB search is dispatched only when the debounced query is
truthy and at least two characters long; otherwise the results are cleared
without any call. -/
def performSearch (net : List TMDBMovieResult) (debouncedSearchQuery : String) : SearchRun :=
  if debouncedSearchQuery ≠ "" ∧ 2 ≤ debouncedSearchQuery.length then
    tmdbSearchMovies net debouncedSearchQuery
  else { apiCalls := 0, results := [] }

example : (videoSearchMovies "a").length = 3 := by decide
example : tmdbSearchMovies [] "a" = { apiCalls := 0, results := [] } := by decide
example : (fetchNewVideoUrl 111 ⟨"https://cdn.example.com", "movie.mp4", [], true⟩).outcome
    = Except.ok "https://cdn.example.com/play/movie.mp4?refresh=111" := by decide

/-- React state of the VideoPlayer component
(src/src/components/VideoPlayer.tsx, lines 25-31). -/
structure PlayerState where
  videoSrc : String
  isLoading : Bool
  hasError : Bool
  isExtracting : Bool
  originalVideoUrl : Option String
  useEmbedView : Bool
  embedUrl : String
deriving DecidableEq

/-- What the component renders for a given state. -/
inductive RenderMode where
  | error : RenderMode
  | embed : String → RenderMode
  | direct : String → RenderMode
deriving DecidableEq

/-- Embeds the JSX render chain of VideoPlayer (lines 265-331): the error view
when `hasError`, otherwise the iframe on `embedUrl` when the embed view is
toggled and an embed URL exists, otherwise the native video element when the
current source classifies as direct, otherwise the iframe on the current
source. -/
def renderMode (s : PlayerState) : RenderMode :=
  if s.hasError then RenderMode.error
  else if s.useEmbedView ∧ s.embedUrl ≠ "" then RenderMode.embed s.embedUrl
  else if isDirectVideoUrl s.videoSrc then RenderMode.direct s.videoSrc
  else RenderMode.embed s.videoSrc

/-- Embeds `extractMovieIdFromUrl` from VideoPlayer (lines 67-71): the first
match of the regex `tt` followed by one or more digits, or the empty string. -/
def ttMatchAt : List Char → Option (List Char)
  | 't' :: 't' :: c :: rest =>
    if c.isDigit then some ('t' :: 't' :: c :: rest.takeWhile Char.isDigit) else none
  | _ => none

/-- First `tt`-digits match anywhere in the character list. -/
def ttFirstMatch : List Char → Option (List Char)
  | [] => none
  | c :: rest =>
    match ttMatchAt (c :: rest) with
    | some m => some m
    | none => ttFirstMatch rest

/-- Embeds `extractMovieIdFromUrl` (`url.match(/tt\d+/)`). -/
def extractMovieIdFromUrl (url : String) : String :=
  match ttFirstMatch url.data with
  | some m => String.mk m
  | none => ""

example : extractMovieIdFromUrl "https://jole340erun.com/play/tt27995594?x" = "tt27995594" := by decide
example : extractMovieIdFromUrl "https://a.com/v.mp4" = "" := by decide

/-- The component state right after mount and the `initialSrc` effect of
VideoPlayer (lines 25-34 and 42-65): all flags false, no extracted URL, and
the embed URL derived from the initial source (the initial source itself for
non-direct sources; for direct jole340erun sources the rebuilt play URL of
the embedded movie id, when one can be found). -/
def initPlayerState (initialSrc : String) : PlayerState :=
  let base : PlayerState :=
    { videoSrc := initialSrc, isLoading := false, hasError := false
    , isExtracting := false, originalVideoUrl := none, useEmbedView := false
    , embedUrl := "" }
  if ¬ (isDirectVideoUrl initialSrc = true) then { base with embedUrl := initialSrc }
  else
    let baseUrl := (strSplitOn initialSrc "/stream").headD initialSrc
    if strIncludes baseUrl "jole340erun.com" then
      let movieId :=
        if strIncludes initialSrc "/play/" then
          (strSplitOn ((strSplitOn initialSrc "/play/").getD 1 "") "?").headD ""
        else extractMovieIdFromUrl initialSrc
      if movieId ≠ "" then
        { base with embedUrl := "https://jole340erun.com/play/" ++ movieId }
      else { base with embedUrl := initialSrc }
    else base

/-- The observable run of one asynchronous session operation: the ordered
intermediate states it passes through, and how many resolver calls
(network-backed promises) it starts. -/
structure OpRun (σ : Type) where
  states : List σ
  resolverCalls : Nat

/-- Final state of a run, given the state it started from. -/
def runFinal {σ : Type} (s : σ) (r : OpRun σ) : σ := r.states.getLast?.getD s

/-- Embeds `handleExtractOriginal` from VideoPlayer (lines 111-134): an early
return when the current source is already direct; otherwise `isExtracting` is
raised, `extractOriginalVideoUrl` is awaited (one resolver call, its settled
value is the `result` argument), a non-null result is stored in
`originalVideoUrl`, adopted as `videoSrc` and the embed view is switched off,
and finally `isExtracting` is cleared. -/
def handleExtractOriginalRun (s : PlayerState) (result : Option String) :
    OpRun PlayerState :=
  if isDirectVideoUrl s.videoSrc then { states := [], resolverCalls := 0 }
  else
    let s1 := { s with isExtracting := true }
    match result with
    | some extractedUrl =>
      let s2 := { s1 with originalVideoUrl := some extractedUrl }
      let s3 := { s2 with videoSrc := extractedUrl }
      let s4 := { s3 with useEmbedView := false }
      { states := [s1, s2, s3, s4, { s4 with isExtracting := false }]
      , resolverCalls := 1 }
    | none =>
      { states := [s1, { s1 with isExtracting := false }], resolverCalls := 1 }

/-- Final state of `handleExtractOriginal`. -/
def handleExtractOriginal (s : PlayerState) (result : Option String) : PlayerState :=
  runFinal s (handleExtractOriginalRun s result)

/-- Embeds `refreshVideoUrl` from VideoPlayer (lines 73-109) in the
configuration the app always uses (a `fetchNewUrl` prop is supplied, so the
body awaits it — one resolver call — with settled outcome `result`): raises
`isLoading`, clears `hasError`, on success adopts the new URL (and mirrors it
into `embedUrl` when it is not direct), on rejection sets `hasError`, and
finally clears `isLoading`.  The body performs no re-entrancy check. -/
def refreshVideoUrlRun (s : PlayerState) (result : Except String String) :
    OpRun PlayerState :=
  let s1 := { s with isLoading := true }
  let s2 := { s1 with hasError := false }
  match result with
  | Except.ok newUrl =>
    let s3 := { s2 with videoSrc := newUrl }
    let s4 := if ¬ (isDirectVideoUrl newUrl = true) then { s3 with embedUrl := newUrl } else s3
    { states := [s1, s2, s3, s4, { s4 with isLoading := false }], resolverCalls := 1 }
  | Except.error _ =>
    let s3 := { s2 with hasError := true }
    { states := [s1, s2, s3, { s3 with isLoading := false }], resolverCalls := 1 }

/-- Final state of `refreshVideoUrl`. -/
def refreshVideoUrl (s : PlayerState) (result : Except String String) : PlayerState :=
  runFinal s (refreshVideoUrlRun s result)

/-- React state of the VideoFetcher component of src/unnamed/part_000
(lines 335-339). -/
structure FetcherState where
  isExtracting : Bool
  isLoading : Bool
  hasError : Bool
  directVideoUrl : Option String
deriving DecidableEq

/-- Mount state of the VideoFetcher session. -/
def initFetcherState : FetcherState :=
  { isExtracting := false, isLoading := false, hasError := false
  , directVideoUrl := none }

/-- Embeds `handleExtractOriginalUrl` from src/unnamed/part_000
(lines 347-369): the guard `if (isExtracting) return` rejects a re-entrant
call outright (no state change, no resolver call); otherwise `isExtracting`
is raised, `hasError` cleared, the extraction awaited (one resolver call,
settled value `result`), a non-null result stored in `directVideoUrl` and a
null result flagged as an error, and finally `isExtracting` is cleared. -/
def handleExtractOriginalUrlRun (s : FetcherState) (result : Option String) :
    OpRun FetcherState :=
  if s.isExtracting then { states := [], resolverCalls := 0 }
  else
    let s1 := { s with isExtracting := true }
    let s2 := { s1 with hasError := false }
    match result with
    | some extractedUrl =>
      let s3 := { s2 with directVideoUrl := some extractedUrl }
      { states := [s1, s2, s3, { s3 with isExtracting := false }], resolverCalls := 1 }
    | none =>
      let s3 := { s2 with hasError := true }
      { states := [s1, s2, s3, { s3 with isExtracting := false }], resolverCalls := 1 }

/-- Embeds `retryVideo` from src/unnamed/part_000 (lines 380-387): raises
`isLoading`, awaits `handleExtractOriginalUrl` in full, and only then clears
`isLoading` in the `finally` block. -/
def retryVideoRun (s : FetcherState) (result : Option String) : OpRun FetcherState :=
  let s1 := { s with isLoading := true }
  let inner := handleExtractOriginalUrlRun s1 result
  let s2 := runFinal s1 inner
  { states := s1 :: inner.states ++ [{ s2 with isLoading := false }]
  , resolverCalls := inner.resolverCalls }

/-- The user intents the VideoFetcher session reacts to: an extraction click,
a retry click (each carrying the settled extraction result), selecting a new
movie (lines 341-345 and 371-374 reset the direct URL and the error flag),
and a playback error from the player (lines 376-378). -/
inductive FetcherEvent where
  | extract : Option String → FetcherEvent
  | retry : Option String → FetcherEvent
  | select : FetcherEvent
  | videoError : FetcherEvent

/-- Whether an event is the retry intent. -/
def FetcherEvent.isRetry : FetcherEvent → Bool
  | FetcherEvent.retry _ => true
  | _ => false

/-- States the session passes through while handling one event. -/
def fetcherEventRun (s : FetcherState) : FetcherEvent → OpRun FetcherState
  | FetcherEvent.extract r => handleExtractOriginalUrlRun s r
  | FetcherEvent.retry r => retryVideoRun s r
  | FetcherEvent.select =>
    { states := [{ s with directVideoUrl := none, hasError := false }], resolverCalls := 0 }
  | FetcherEvent.videoError =>
    { states := [{ s with hasError := true }], resolverCalls := 0 }

/-- All intermediate states of a session run over a list of events, in
order. -/
def fetcherTrace (s : FetcherState) : List FetcherEvent → List FetcherState
  | [] => []
  | e :: es =>
    let run := fetcherEventRun s e
    run.states ++ fetcherTrace (runFinal s run) es

example :
    (fetcherTrace initFetcherState
      [FetcherEvent.videoError, FetcherEvent.retry (some "u")]).any
      (fun st => st.isExtracting && st.isLoading) = true := by decide

theorem strData_inj {s t : String} (h : s.data = t.data) : s = t :=
  congrArg String.mk h

theorem strEndsWith_iff (s p : String) :
    strEndsWith s p = true ↔ ∃ a : String, s = a ++ p := by
  unfold strEndsWith
  rw [List.isSuffixOf_iff_suffix]
  constructor
  · rintro ⟨t, ht⟩
    exact ⟨String.mk t, strData_inj (by rw [String.data_append]; exact ht.symm)⟩
  · rintro ⟨a, rfl⟩
    exact ⟨a.data, (String.data_append a p).symm⟩

theorem listContains_spec (p l : List Char) :
    listContains p l = true ↔ p <:+: l := by
  induction l with
  | nil => simp [listContains, List.isPrefixOf_iff_prefix]
  | cons c cs ih =>
    simp [listContains, List.isPrefixOf_iff_prefix, ih, List.infix_cons_iff]

theorem strIncludes_iff (s p : String) :
    strIncludes s p = true ↔ ∃ a b : String, s = a ++ p ++ b := by
  unfold strIncludes
  rw [listContains_spec]
  constructor
  · rintro ⟨t₁, t₂, ht⟩
    refine ⟨String.mk t₁, String.mk t₂, strData_inj ?_⟩
    rw [String.data_append, String.data_append]
    exact ht.symm
  · rintro ⟨a, b, rfl⟩
    exact ⟨a.data, b.data, by rw [String.data_append, String.data_append]⟩

theorem head?_filter {α : Type} (p : α → Bool) (l : List α) :
    (l.filter p).head? = l.find? p := by
  induction l with
  | nil => rfl
  | cons a l ih => by_cases h : p a <;> simp [List.filter_cons, List.find?_cons, h, ih]

theorem getLast?_filter {α : Type} (p : α → Bool) (l : List α) :
    (l.filter p).getLast? = l.reverse.find? p := by
  rw [List.getLast?_eq_head?_reverse, ← List.filter_reverse, head?_filter]

theorem digits_not_tt (t : String) (h : t.data.all Char.isDigit = true) :
    strStartsWith t "tt" = false := by
  unfold strStartsWith
  cases ht : t.data with
  | nil => rfl
  | cons c cs =>
    have hc : c.isDigit = true := by
      rw [ht, List.all_cons, Bool.and_eq_true] at h
      exact h.1
    have hne : ('t' == c) = false := by
      cases hc2 : ('t' == c) with
      | false => rfl
      | true =>
        have hct : c = 't' := (beq_iff_eq.mp hc2).symm
        rw [hct] at hc
        exact absurd hc (by decide)
    simp [List.isPrefixOf, hne]

theorem jsIsNumeric_of_digits (s : String) (h0 : s.data ≠ [])
    (h : s.data.all Char.isDigit = true) : jsIsNumeric s = true := by
  obtain ⟨c, cs, hcs⟩ := List.exists_cons_of_ne_nil h0
  have hall : ∀ x ∈ s.data, x.isDigit = true := List.all_eq_true.mp h
  have hc : c.isDigit = true := hall c (by rw [hcs]; exact List.mem_cons_self c cs)
  unfold jsIsNumeric
  rw [if_neg h0]
  by_cases hnd : isNonDecimalLiteral s.data = true
  · simp [hnd]
  · have hplus : ¬ (c = '+' ∨ c = '-') := by
      rintro (rfl | rfl) <;> exact absurd hc (by decide)
    have hcore : (match s.data with
        | c' :: r => if c' = '+' ∨ c' = '-' then r else c' :: r
        | [] => []) = s.data := by
      rw [hcs]
      simp [hplus]
    have htake : s.data.takeWhile Char.isDigit = s.data :=
      List.takeWhile_eq_self_iff.mpr hall
    have hdrop : s.data.dropWhile Char.isDigit = [] :=
      List.dropWhile_eq_nil_iff.mpr hall
    have hdec : isUnsignedDecimal s.data = true := by
      unfold isUnsignedDecimal
      rw [htake, hdrop]
      rw [if_pos (by rw [hcs]; exact List.cons_ne_nil c cs)]
      rfl
    simp only [Bool.if_false_right, Bool.and_eq_true, hnd]
    rw [hcore]
    simp [hdec]

theorem runFinal_prop {σ : Type} (P : σ → Prop) (s : σ) (r : OpRun σ)
    (hs : P s) (hall : ∀ st ∈ r.states, P st) : P (runFinal s r) := by
  unfold runFinal
  cases h : r.states.getLast? with
  | none => simpa using hs
  | some a => simpa using hall a (List.mem_of_mem_getLast? h)

theorem extract_states_isLoading (s : FetcherState) (r : Option String) :
    ∀ st ∈ (handleExtractOriginalUrlRun s r).states, st.isLoading = s.isLoading := by
  intro st hst
  by_cases hg : s.isExtracting
  · simp [handleExtractOriginalUrlRun, hg] at hst
  · cases r <;> simp [handleExtractOriginalUrlRun, hg] at hst <;>
      rcases hst with rfl | rfl | rfl | rfl <;> rfl

theorem fetcherEventRun_states_isLoading (s : FetcherState) (e : FetcherEvent)
    (he : e.isRetry = false) :
    ∀ st ∈ (fetcherEventRun s e).states, st.isLoading = s.isLoading := by
  intro st hst
  cases e with
  | extract r => exact extract_states_isLoading s r st hst
  | retry r => exact absurd he (by simp [FetcherEvent.isRetry])
  | select => simp [fetcherEventRun] at hst; rw [hst]
  | videoError => simp [fetcherEventRun] at hst; rw [hst]

theorem fetcherTrace_isLoading (evs : List FetcherEvent) :
    ∀ s : FetcherState, s.isLoading = false → (∀ e ∈ evs, e.isRetry = false) →
      ∀ st ∈ fetcherTrace s evs, st.isLoading = false := by
  induction evs with
  | nil => intro s _ _ st hst; simp [fetcherTrace] at hst
  | cons e es ih =>
    intro s hs he st hst
    have heF : e.isRetry = false := he e (List.mem_cons_self e es)
    simp only [fetcherTrace, List.mem_append] at hst
    rcases hst with h1 | h2
    · exact (fetcherEventRun_states_isLoading s e heF st h1).trans hs
    · refine ih (runFinal s (fetcherEventRun s e)) ?_ (fun e' he' => he e' (List.mem_cons_of_mem e he')) st h2
      exact runFinal_prop (fun st => st.isLoading = false) s (fetcherEventRun s e) hs
        (fun st hst => (fetcherEventRun_states_isLoading s e heF st hst).trans hs)

theorem handleExtractOriginal_success (s : PlayerState) (u : String)
    (h : isDirectVideoUrl s.videoSrc = false) :
    handleExtractOriginal s (some u) =
      { s with isExtracting := false, originalVideoUrl := some u
             , videoSrc := u, useEmbedView := false } := by
  unfold handleExtractOriginal handleExtractOriginalRun runFinal
  rw [if_neg (by simp [h])]
  rfl

/-- C1 counterexample: in the session mounted on the embed source
`https://jole340erun.com/play/tt27995594`, a successful extraction does not
leave the displayed source and render mode unchanged, contrary to the claim:
the extracted URL is adopted as `videoSrc` (line 122 of VideoPlayer.tsx,
comment "Automatically use the direct URL") and the view force-switches from
the embed iframe to the direct player (line 123 clears `useEmbedView`). -/
theorem extractOriginal_adopts_source_cex :
    (handleExtractOriginal (initPlayerState "https://jole340erun.com/play/tt27995594")
        (some "https://test-streams.mux.dev/x36xhzz/x36xhzz.m3u8")).videoSrc
      = "https://test-streams.mux.dev/x36xhzz/x36xhzz.m3u8"
    ∧ (initPlayerState "https://jole340erun.com/play/tt27995594").videoSrc
      = "https://jole340erun.com/play/tt27995594"
    ∧ renderMode (initPlayerState "https://jole340erun.com/play/tt27995594")
      = RenderMode.embed "https://jole340erun.com/play/tt27995594"
    ∧ renderMode (handleExtractOriginal (initPlayerState "https://jole340erun.com/play/tt27995594")
        (some "https://test-streams.mux.dev/x36xhzz/x36xhzz.m3u8"))
      = RenderMode.direct "https://test-streams.mux.dev/x36xhzz/x36xhzz.m3u8" := by
  decide

/-- C1 (amended): when `extractOriginal` runs on a non-direct current source
and succeeds, the session records the extracted URL in `originalVideoUrl` AND
adopts it as the current source, switching the embed view off (so the render
mode becomes the direct player rather than staying unchanged); the loading
and error flags and the stored embed URL are untouched and the extraction
flag ends cleared. -/
theorem extractOriginal_success_behavior (s : PlayerState) (u : String)
    (h : isDirectVideoUrl s.videoSrc = false) :
    (handleExtractOriginal s (some u)).originalVideoUrl = some u
    ∧ (handleExtractOriginal s (some u)).videoSrc = u
    ∧ (handleExtractOriginal s (some u)).useEmbedView = false
    ∧ (handleExtractOriginal s (some u)).isExtracting = false
    ∧ (handleExtractOriginal s (some u)).isLoading = s.isLoading
    ∧ (handleExtractOriginal s (some u)).hasError = s.hasError
    ∧ (handleExtractOriginal s (some u)).embedUrl = s.embedUrl := by
  rw [handleExtractOriginal_success s u h]
  exact ⟨rfl, rfl, rfl, rfl, rfl, rfl, rfl⟩

/-- C1 witness: the amended theorem applied to the mounted embed session. -/
theorem extractOriginal_success_behavior_witness :
    (handleExtractOriginal (initPlayerState "https://jole340erun.com/play/tt27995594")
        (some "https://test-streams.mux.dev/x36xhzz/x36xhzz.m3u8")).videoSrc
      = "https://test-streams.mux.dev/x36xhzz/x36xhzz.m3u8" :=
  (extractOriginal_success_behavior
    (initPlayerState "https://jole340erun.com/play/tt27995594")
    "https://test-streams.mux.dev/x36xhzz/x36xhzz.m3u8" (by decide)).2.1

/-- C2 counterexample: starting from the mount state, a playback error
followed by a retry click drives the session through a state in which
`isExtracting` and `isLoading` are BOTH true: `retryVideo` (part_000 lines
380-387) raises `isLoading` and keeps it raised while the awaited
`handleExtractOriginalUrl` raises `isExtracting`, contrary to the claimed
mutual exclusion. -/
theorem retry_overlaps_flags_cex :
    (fetcherTrace initFetcherState
      [FetcherEvent.videoError,
       FetcherEvent.retry (some "https://test-streams.mux.dev/x36xhzz/x36xhzz.m3u8")]).get? 2
      = some ⟨true, true, true, none⟩
    ∧ (⟨true, true, true, none⟩ : FetcherState).isExtracting = true
    ∧ (⟨true, true, true, none⟩ : FetcherState).isLoading = true := by
  decide

/-- C2 (amended): `isExtracting` and `isLoading` are mutually exclusive in
every state the VideoFetcher session reaches through extract, select and
error events — every event except `retryVideo` — and, in the VideoPlayer
session, a refresh never raises `isExtracting` and an extraction never raises
`isLoading`; only `retryVideo` holds `isLoading` while the inner extraction
is in flight, making both flags true at once. -/
theorem flags_mutual_exclusion_amended :
    (∀ evs : List FetcherEvent, (∀ e ∈ evs, e.isRetry = false) →
      ∀ st ∈ fetcherTrace initFetcherState evs, (st.isExtracting && st.isLoading) = false)
    ∧ (∀ (s : PlayerState) (r : Except String String), s.isExtracting = false →
      ∀ st ∈ (refreshVideoUrlRun s r).states, st.isExtracting = false)
    ∧ (∀ (s : PlayerState) (r : Option String), s.isLoading = false →
      ∀ st ∈ (handleExtractOriginalRun s r).states, st.isLoading = false) := by
  refine ⟨?_, ?_, ?_⟩
  · intro evs he st hst
    have hld : st.isLoading = false := fetcherTrace_isLoading evs initFetcherState rfl he st hst
    simp [hld]
  · intro s r hs st hst
    cases r with
    | error e =>
      simp [refreshVideoUrlRun] at hst
      rcases hst with rfl | rfl | rfl | rfl <;> simpa using hs
    | ok u =>
      by_cases hd : isDirectVideoUrl u = true <;>
        simp [refreshVideoUrlRun, hd] at hst <;>
        rcases hst with rfl | rfl | rfl | rfl | rfl <;> simpa using hs
  · intro s r hs st hst
    by_cases hg : isDirectVideoUrl s.videoSrc = true
    · simp [handleExtractOriginalRun, hg] at hst
    · cases r <;> simp [handleExtractOriginalRun, hg] at hst <;>
        first
        | (rcases hst with rfl | rfl <;> simpa using hs)
        | (rcases hst with rfl | rfl | rfl | rfl | rfl <;> simpa using hs)

/-- C2 witness: the amended theorem applied to a one-event extraction trace;
the state with the extraction flag raised still has the loading flag down. -/
theorem flags_mutual_exclusion_amended_witness :
    ((⟨true, false, false, none⟩ : FetcherState).isExtracting &&
      (⟨true, false, false, none⟩ : FetcherState).isLoading) = false :=
  flags_mutual_exclusion_amended.1
    [FetcherEvent.extract (some "https://x.example/u.m3u8")] (by decide)
    ⟨true, false, false, none⟩ (by decide)

/-- C3 counterexample: in a VideoPlayer session state whose `isLoading` flag
is already true, invoking `refreshVideoUrl` again is neither a no-op nor
rejected: the body has no re-entrancy guard, so it starts another resolver
call (`await fetchNewUrl()`) and mutates the state. -/
theorem refresh_reentrant_cex :
    (⟨"https://jole340erun.com/play/tt1", true, false, false, none, false,
        "https://jole340erun.com/play/tt1"⟩ : PlayerState).isLoading = true
    ∧ (refreshVideoUrlRun
        ⟨"https://jole340erun.com/play/tt1", true, false, false, none, false,
          "https://jole340erun.com/play/tt1"⟩
        (Except.ok "https://jole340erun.com/play/tt1?refresh=7")).resolverCalls = 1
    ∧ refreshVideoUrl
        ⟨"https://jole340erun.com/play/tt1", true, false, false, none, false,
          "https://jole340erun.com/play/tt1"⟩
        (Except.ok "https://jole340erun.com/play/tt1?refresh=7")
      ≠ ⟨"https://jole340erun.com/play/tt1", true, false, false, none, false,
          "https://jole340erun.com/play/tt1"⟩ := by
  decide

/-- C3 (amended): the extraction half of the claim holds — a re-entrant
`handleExtractOriginalUrl` call while `isExtracting` is true is rejected by
the `if (isExtracting) return` guard, starting no resolver call and changing
no state — but the refresh half does not: `refreshVideoUrl` performs no
re-entrancy check and starts one resolver call on every invocation, also
while `isLoading` is already true (only the UI button disabling stands
between a loading session and a second in-flight refresh). -/
theorem single_flight_guard_amended :
    (∀ (s : FetcherState) (r : Option String), s.isExtracting = true →
      (handleExtractOriginalUrlRun s r).resolverCalls = 0
      ∧ runFinal s (handleExtractOriginalUrlRun s r) = s)
    ∧ ∀ (s : PlayerState) (r : Except String String),
      (refreshVideoUrlRun s r).resolverCalls = 1 := by
  constructor
  · intro s r hs
    constructor <;> simp [handleExtractOriginalUrlRun, hs, runFinal]
  · intro s r
    cases r <;> rfl

/-- C3 witness: the amended theorem applied to an extracting session. -/
theorem single_flight_guard_amended_witness :
    (handleExtractOriginalUrlRun ⟨true, false, false, none⟩
        (some "https://x.example/u.m3u8")).resolverCalls = 0
    ∧ runFinal (⟨true, false, false, none⟩ : FetcherState)
        (handleExtractOriginalUrlRun ⟨true, false, false, none⟩
          (some "https://x.example/u.m3u8"))
      = ⟨true, false, false, none⟩ :=
  single_flight_guard_amended.1 ⟨true, false, false, none⟩
    (some "https://x.example/u.m3u8") (by decide)

/-- C4 counterexample: the config parsed from the direct URL
`https://cdn.example.com/videos/movie.mp4` carries `isDirectVideo = true`,
yet `fetchNewVideoUrl` returns the rebuilt embed URL
`baseUrl/play/videoId?refresh=ts` — which does not extend the original direct
URL (with or without its query stripped), so no cache-busting marker was
appended or replaced, contrary to the claimed direct-branch policy. -/
theorem fetchNewVideoUrl_direct_policy_cex :
    parseVideoUrl "https://cdn.example.com/videos/movie.mp4"
      = some ⟨"https://cdn.example.com", "movie.mp4", [], true⟩
    ∧ (fetchNewVideoUrl 111 ⟨"https://cdn.example.com", "movie.mp4", [], true⟩).outcome
      = Except.ok "https://cdn.example.com/play/movie.mp4?refresh=111"
    ∧ ¬ refreshPolicyDirectClaim "https://cdn.example.com/videos/movie.mp4"
        "https://cdn.example.com/play/movie.mp4?refresh=111" := by
  refine ⟨by decide, by decide, ?_⟩
  have key : ∀ m : String,
      ("https://cdn.example.com/play/movie.mp4?refresh=111" : String)
        ≠ "https://cdn.example.com/videos/movie.mp4" ++ m := by
    intro m hm
    have hd := congrArg String.data hm
    rw [String.data_append] at hd
    have htake : ("https://cdn.example.com/play/movie.mp4?refresh=111" : String).data.take
        ("https://cdn.example.com/videos/movie.mp4" : String).data.length
        = ("https://cdn.example.com/videos/movie.mp4" : String).data := by
      rw [hd]; exact List.take_left _ _
    exact absurd htake (by decide)
  rintro (⟨m, hm⟩ | ⟨m, hm⟩)
  · exact key m hm
  · refine key m ?_
    rwa [show (strSplitOn "https://cdn.example.com/videos/movie.mp4" "?").headD
        "https://cdn.example.com/videos/movie.mp4"
      = "https://cdn.example.com/videos/movie.mp4" from by decide] at hm

/-- C4 (amended): for every valid config (non-empty `baseUrl` and `videoId`)
`fetchNewVideoUrl` resolves the rebuilt embed URL
`baseUrl + "/play/" + videoId + "?refresh=" + timestamp`, IGNORING
`isDirectVideo`: the result is identical whatever the flag's value (the
direct-URL cache-busting branch exists only in the unnamed service variant
src/unnamed/part_006, not in the cited videoService.ts function). -/
theorem fetchNewVideoUrl_uniform_embed_rebuild (now : Nat) (cfg : VideoSourceConfig)
    (h1 : cfg.baseUrl ≠ "") (h2 : cfg.videoId ≠ "") :
    (fetchNewVideoUrl now cfg).outcome
      = Except.ok (cfg.baseUrl ++ "/play/" ++ cfg.videoId ++ "?refresh=" ++ toString now)
    ∧ ∀ b : Bool, fetchNewVideoUrl now { cfg with isDirectVideo := b }
      = fetchNewVideoUrl now cfg := by
  constructor
  · simp [fetchNewVideoUrl, h1, h2]
  · intro b; rfl

/-- C4 witness: the amended theorem applied to the parsed direct config. -/
theorem fetchNewVideoUrl_uniform_embed_rebuild_witness :
    (fetchNewVideoUrl 111 ⟨"https://cdn.example.com", "movie.mp4", [], true⟩).outcome
      = Except.ok ("https://cdn.example.com" ++ "/play/" ++ "movie.mp4"
          ++ "?refresh=" ++ toString 111) :=
  (fetchNewVideoUrl_uniform_embed_rebuild 111
    ⟨"https://cdn.example.com", "movie.mp4", [], true⟩ (by decide) (by decide)).1

/-- C5 counterexample: on the empty config the rejection reason is the local
validation error, but it is delivered only after the full 1000 ms simulated
network delay — the `if (!sourceConfig.baseUrl || !sourceConfig.videoId)`
check sits INSIDE the `setTimeout` callback (videoService.ts lines 49-54), so
the failure is not raised before the (simulated) I/O wait as claimed. -/
theorem validation_after_delay_cex :
    (fetchNewVideoUrl 0 ⟨"", "", [], false⟩).outcome
      = Except.error "Invalid video source configuration"
    ∧ (fetchNewVideoUrl 0 ⟨"", "", [], false⟩).waitMs = 1000 := by
  decide

/-- C5 (amended): `fetchNewVideoUrl` rejects with the validation error
exactly when `baseUrl` or `videoId` is empty, but the check runs inside the
delayed callback, so every call — valid or not — settles only after the
1000 ms simulated network wait rather than failing before any I/O. -/
theorem fetchNewVideoUrl_validation_amended (now : Nat) (cfg : VideoSourceConfig) :
    ((fetchNewVideoUrl now cfg).outcome
        = Except.error "Invalid video source configuration"
      ↔ (cfg.baseUrl = "" ∨ cfg.videoId = ""))
    ∧ (fetchNewVideoUrl now cfg).waitMs = 1000 := by
  constructor
  · by_cases h : cfg.baseUrl = "" ∨ cfg.videoId = "" <;> simp [fetchNewVideoUrl, h]
  · rfl

/-- C6 counterexample: the upper-case variant `.M3U8` is NOT classified as
direct by the code — `url.endsWith('.m3u8')` and `url.includes('/stream')`
are case-sensitive; only the extension regex carries the `/i` flag — while
the claim's fully case-insensitive classifier accepts it. -/
theorem classifier_case_sensitivity_cex :
    isDirectVideoUrl "https://a.com/video.M3U8" = false
    ∧ isDirectVideoUrlSpec "https://a.com/video.M3U8" = true
    ∧ isDirectVideoUrl "https://a.com/video.m3u8" = true := by
  decide

/-- C6 (amended): `isDirectVideoUrl url` is true exactly when `url` ends with
`.m3u8` compared case-sensitively, contains the substring `/stream` compared
case-sensitively, or ends with `.mp4`, `.webm`, `.ogg` or `.mov` compared
case-insensitively; the function is pure and total, and every other string —
malformed URLs included — yields false. -/
theorem isDirectVideoUrl_characterization (url : String) :
    isDirectVideoUrl url = true ↔
      (∃ a : String, url = a ++ ".m3u8")
      ∨ (∃ a b : String, url = a ++ "/stream" ++ b)
      ∨ (∃ a : String, strLower url = a ++ ".mp4")
      ∨ (∃ a : String, strLower url = a ++ ".webm")
      ∨ (∃ a : String, strLower url = a ++ ".ogg")
      ∨ (∃ a : String, strLower url = a ++ ".mov") := by
  unfold isDirectVideoUrl hasVideoFileExt
  simp only [List.any_cons, List.any_nil, Bool.or_eq_true, Bool.or_false,
    strEndsWith_iff, strIncludes_iff]
  exact or_assoc

/-- C7 counterexample: `0x1F` is not purely numeric (it is not a digit
string), yet the code prefixes it — `Number("0x1F")` parses as hexadecimal 31
so `!isNaN(...)` holds — producing `.../play/tt0x1F` where the claim requires
the non-numeric input to pass through unchanged as `.../play/0x1F`. -/
theorem tt_prefix_numeric_cex :
    generateVideoUrlFromId "0x1F" = "https://jole340erun.com/play/tt0x1F"
    ∧ generateVideoUrlFromIdClaim "0x1F" = "https://jole340erun.com/play/0x1F"
    ∧ ("0x1F" : String).data.all Char.isDigit = false
    ∧ generateVideoUrlFromId "0x1F" ≠ generateVideoUrlFromIdClaim "0x1F" := by
  decide

/-- C7 (amended): `generateVideoUrlFromId` trims its input and prefixes `tt`
exactly when the trimmed input does not already start with `tt` and
`Number(input)` is not NaN — a condition satisfied by every purely numeric
(digit) string but also by decimal, exponent, hex/octal/binary and `Infinity`
forms and the empty string, which therefore get prefixed too rather than
passing through unchanged; already tt-prefixed inputs pass through, and
`resolveFromId("27995594")` equals `resolveFromId("tt27995594")`. -/
theorem generateVideoUrlFromId_amended :
    (∀ movieId : String, strTrim movieId ≠ "" →
      (strTrim movieId).data.all Char.isDigit = true →
      generateVideoUrlFromId movieId
        = "https://jole340erun.com/play/" ++ ("tt" ++ strTrim movieId))
    ∧ (∀ movieId : String, strStartsWith (strTrim movieId) "tt" = true →
      generateVideoUrlFromId movieId
        = "https://jole340erun.com/play/" ++ strTrim movieId)
    ∧ generateVideoUrlFromId "27995594" = generateVideoUrlFromId "tt27995594" := by
  refine ⟨?_, ?_, by decide⟩
  · intro movieId hne hdig
    have hstart : strStartsWith (strTrim movieId) "tt" = false := digits_not_tt _ hdig
    have hdata : (strTrim movieId).data ≠ [] := fun hd => hne (strData_inj hd)
    have hnum : jsIsNumeric (strTrim movieId) = true :=
      jsIsNumeric_of_digits _ hdata hdig
    simp [generateVideoUrlFromId, hstart, hnum]
  · intro movieId hstart
    simp [generateVideoUrlFromId, hstart]

/-- C7 witness: the amended theorem applied to the digit string `42` and the
prefixed string `tt42`. -/
theorem generateVideoUrlFromId_amended_witness :
    generateVideoUrlFromId "42" = "https://jole340erun.com/play/" ++ ("tt" ++ strTrim "42")
    ∧ generateVideoUrlFromId "tt42" = "https://jole340erun.com/play/" ++ strTrim "tt42" :=
  ⟨generateVideoUrlFromId_amended.1 "42" (by decide) (by decide),
   generateVideoUrlFromId_amended.2.1 "tt42" (by decide)⟩

/-- C8 (confirmed): `parseVideoUrl` is total — modelled as a pure function it
returns none exactly when the browser URL constructor fails (so
`parseVideoUrl("not a url")` is null and nothing is thrown) — and on success
the config's `baseUrl` is scheme+host, its `videoId` is the last non-empty
path segment (empty when the path has none), and `isDirectVideo` is the
classifier applied to the input URL. -/
theorem parseVideoUrl_total_and_fields :
    parseVideoUrl "not a url" = none
    ∧ (∀ url : String, parseVideoUrl url = none ↔ urlParse url = none)
    ∧ (∀ (url : String) (u : URLParts), urlParse url = some u →
        parseVideoUrl url
          = some { baseUrl := u.protocol ++ "//" ++ u.hostname
                 , videoId := lastNonEmptySegment u.pathname
                 , params := parseSearchParams u.search
                 , isDirectVideo := isDirectVideoUrl url }) := by
  refine ⟨by decide, ?_, ?_⟩
  · intro url
    unfold parseVideoUrl
    cases urlParse url <;> simp
  · intro url u hu
    unfold parseVideoUrl
    rw [hu]
    simp only [lastNonEmptySegment, ← getLast?_filter]

/-- C8 witness: the field characterization applied to a concrete embed URL
with a query. -/
theorem parseVideoUrl_total_and_fields_witness :
    parseVideoUrl "https://jole340erun.com/play/tt27995594?x=1"
      = some { baseUrl := "https:" ++ "//" ++ "jole340erun.com"
             , videoId := lastNonEmptySegment "/play/tt27995594"
             , params := parseSearchParams "x=1"
             , isDirectVideo := isDirectVideoUrl "https://jole340erun.com/play/tt27995594?x=1" } :=
  parseVideoUrl_total_and_fields.2.2 "https://jole340erun.com/play/tt27995594?x=1"
    ⟨"https:", "jole340erun.com", "/play/tt27995594", "x=1"⟩ (by decide)

/-- C9 counterexample: the single-character query `a` refutes the claim on
the cited mock search path: `searchMovies` of videoService.ts has no
minimum-length guard and resolves three mock results (not an empty set), and
the submit-driven dispatch of MovieSearch.tsx sends any non-empty trimmed
query, including length-1 ones, without debouncing. -/
theorem search_short_query_cex :
    ("a" : String).length = 1
    ∧ (videoSearchMovies "a").length = 3
    ∧ movieSearchDispatches "a" = true := by
  decide

/-- C9 (amended): on the TMDB path the claim holds — `searchMovies` of
tmdbService.ts returns an empty result set without issuing the API fetch for
every query shorter than two characters, and the debounced coordinator of
part_000 dispatches no search and clears the results for such queries — but
the mock `searchMovies` of videoService.ts and its submit-driven caller lack
the guard and produce non-empty mock results for single-character queries. -/
theorem search_guard_amended (net : List TMDBMovieResult) (query : String)
    (h : query.length < 2) :
    tmdbSearchMovies net query = { apiCalls := 0, results := [] }
    ∧ performSearch net query = { apiCalls := 0, results := [] } := by
  constructor
  · unfold tmdbSearchMovies
    rw [if_pos (Or.inr h)]
  · unfold performSearch
    rw [if_neg ?_]
    rintro ⟨-, h2⟩
    omega

/-- C9 witness: the amended theorem applied to the length-1 query `a` with a
non-empty network answer available. -/
theorem search_guard_amended_witness :
    tmdbSearchMovies [⟨603, "The Matrix", none, "1999-03-31", "sci-fi"⟩] "a"
      = { apiCalls := 0, results := [] }
    ∧ performSearch [⟨603, "The Matrix", none, "1999-03-31", "sci-fi"⟩] "a"
      = { apiCalls := 0, results := [] } :=
  search_guard_amended [⟨603, "The Matrix", none, "1999-03-31", "sci-fi"⟩] "a" (by decide)

/-- C10 (confirmed): for every movie id the mock `extractOriginalVideoUrl`
resolves a non-null URL ending in `.m3u8`, hence classified direct by
`isDirectVideoUrl`; it never resolves null (and its body never throws), so
the callers' could-not-extract branch is unreachable against this
implementation. -/
theorem extractOriginalVideoUrl_always_direct (movieId : String) :
    ∃ u : String, extractOriginalVideoUrl movieId = some u
      ∧ strEndsWith u ".m3u8" = true ∧ isDirectVideoUrl u = true := by
  unfold extractOriginalVideoUrl
  refine ⟨_, rfl, ?_, ?_⟩ <;> (repeat' split) <;> decide

end DynFetch
